import Mathlib

/-!
Shallow embedding of the paging core of `zero-virtual`: the pure paging
reducer (`src/react/paging-reducer.ts`), the row-window materializer
(`src/react/use-rows.ts`, `useRows`, split here by anchor kind), and the
page-size logic of the viewport coordinator
(`src/react/use-zero-virtualizer.ts`).

JS numbers that hold row counts and indices are modelled as `Int` (they are
integers in every reachable state; signed offsets occur), list lengths and
page sizes as `Nat`. JS array indexing `a[i]`, which yields `undefined` for
an index outside `[0, a.length)`, is `jsIndex`. `assert` calls are modelled
with `Except Unit`: `.error ()` is an assertion failure.
-/

namespace ZeroVirtual

/-- JS array indexing on an integer index: the element when
`0 ≤ i < l.length`, otherwise `undefined` (`none`). -/
def jsIndex {α : Type} (l : List α) (i : Int) : Option α :=
  if i < 0 then none else l[i.toNat]?

/-- `Anchor<TStartRow>` from use-rows.ts: a forward anchor (optional start
row), a backward anchor (start row required), or a permalink anchor (id). -/
inductive Anchor (S : Type) where
  | forward (index : Int) (startRow : Option S)
  | backward (index : Int) (startRow : S)
  | permalink (index : Int) (id : String)
  deriving DecidableEq

/-- The `index` field common to all three anchor variants. -/
def Anchor.index {S : Type} : Anchor S → Int
  | .forward i _ => i
  | .backward i _ => i
  | .permalink i _ => i

/-- `{...anchor, index: i}`: replace the index, keep the rest. -/
def Anchor.withIndex {S : Type} : Anchor S → Int → Anchor S
  | .forward _ s, i => .forward i s
  | .backward _ s, i => .backward i s
  | .permalink _ pid, i => .permalink i pid

/-- `QueryAnchor` from paging-reducer.ts: an anchor tagged with the
list-context params it was computed against. -/
structure QueryAnchor (C S : Type) where
  anchor : Anchor S
  listContextParams : C
  deriving DecidableEq

/-- The `pagingPhase` field's three values. -/
inductive PagingPhase where
  | idle
  | adjusting
  | skipping
  deriving DecidableEq

/-- `PagingState` from paging-reducer.ts. -/
structure PagingState (C S : Type) where
  estimatedTotal : Int
  hasReachedStart : Bool
  hasReachedEnd : Bool
  queryAnchor : QueryAnchor C S
  pagingPhase : PagingPhase
  pendingScrollAdjustment : Int
  deriving DecidableEq

/-- `PagingAction` from paging-reducer.ts. -/
inductive PagingAction (C S : Type) where
  | updateEstimatedTotal (newTotal : Int)
  | reachedStart
  | reachedEnd
  | updateAnchor (anchor : Anchor S)
  | shiftAnchorDown (offset : Int) (newAnchor : Anchor S)
  | resetToTop (offset : Int)
  | scrollAdjusted
  | pagingComplete
  | resetState (estimatedTotal : Int) (hasReachedStart hasReachedEnd : Bool)
      (anchor : Anchor S) (listContextParams : C)
  deriving DecidableEq

/-- Whether an action is `RESET_STATE`. -/
def isResetState {C S : Type} : PagingAction C S → Bool
  | .resetState .. => true
  | _ => false

/-- `pagingReducer` from paging-reducer.ts, case for case. Note that the
`RESET_STATE` case spreads the prior state and overrides every field except
`pendingScrollAdjustment`, exactly as the source does. -/
def pagingReducer {C S : Type} (state : PagingState C S) (action : PagingAction C S) :
    PagingState C S :=
  match action with
  | .updateEstimatedTotal newTotal' =>
      let newTotal := max state.estimatedTotal newTotal'
      if newTotal = state.estimatedTotal then state
      else { state with estimatedTotal := newTotal }
  | .reachedStart => { state with hasReachedStart := true }
  | .reachedEnd => { state with hasReachedEnd := true }
  | .updateAnchor anchor =>
      { state with queryAnchor := { state.queryAnchor with anchor := anchor } }
  | .shiftAnchorDown offset newAnchor =>
      { state with
          queryAnchor := { state.queryAnchor with anchor := newAnchor }
          pendingScrollAdjustment := offset
          pagingPhase := .adjusting }
  | .resetToTop offset =>
      { state with
          queryAnchor := { state.queryAnchor with anchor := .forward 0 none }
          pendingScrollAdjustment := offset
          pagingPhase := .adjusting }
  | .scrollAdjusted =>
      { state with
          estimatedTotal := state.estimatedTotal + state.pendingScrollAdjustment
          pendingScrollAdjustment := 0
          pagingPhase := .skipping }
  | .pagingComplete => { state with pagingPhase := .idle }
  | .resetState estimatedTotal hasReachedStart hasReachedEnd anchor listContextParams =>
      { state with
          estimatedTotal := estimatedTotal
          hasReachedStart := hasReachedStart
          hasReachedEnd := hasReachedEnd
          queryAnchor := { anchor := anchor, listContextParams := listContextParams }
          pagingPhase := .skipping }

/-- `NUM_ROWS_FOR_LOADING_SKELETON` from use-zero-virtualizer.ts. -/
def NUM_ROWS_FOR_LOADING_SKELETON : Int := 1

/-- `MIN_PAGE_SIZE` from use-zero-virtualizer.ts. -/
def MIN_PAGE_SIZE : Nat := 100

/-- `TOP_ANCHOR` from use-zero-virtualizer.ts. -/
def TOP_ANCHOR {S : Type} : Anchor S := .forward 0 none

/-- The `useReducer` initializer of use-zero-virtualizer.ts on a fresh mount
with no persisted permalink state and no permalink id: top anchor, estimate
of one loading-skeleton row, neither boundary reached. -/
def initialPagingState {C S : Type} (listContextParams : C) : PagingState C S :=
  { estimatedTotal := NUM_ROWS_FOR_LOADING_SKELETON
    hasReachedStart := false
    hasReachedEnd := false
    queryAnchor := { anchor := TOP_ANCHOR, listContextParams := listContextParams }
    pagingPhase := .idle
    pendingScrollAdjustment := 0 }

/-- use-zero-virtualizer.ts line 478:
`const total = hasReachedStart && hasReachedEnd ? estimatedTotal : undefined`. -/
def exposedTotal {C S : Type} (s : PagingState C S) : Option Int :=
  if s.hasReachedStart && s.hasReachedEnd then some s.estimatedTotal else none

/-- The record `useRows` returns for a forward or backward anchor. -/
structure RowsResult (TRow : Type) where
  rowAt : Int → Option TRow
  rowsLength : Nat
  complete : Bool
  rowsEmpty : Bool
  atStart : Bool
  atEnd : Bool
  firstRowIndex : Int
  permalinkNotFound : Bool

/-- The forward branch of `useRows` (use-rows.ts): `rows` is the result of
the single page query of limit `pageSize + 1` in the forward direction from
the anchor's start row, `complete` its completion status. -/
def useRowsForward {TRow S : Type} (pageSize : Nat) (anchorIndex : Int)
    (startRow : Option S) (rows : List TRow) (complete : Bool) : RowsResult TRow :=
  let hasMoreRows : Bool := decide (rows.length > pageSize)
  let rowsLength : Nat := if hasMoreRows then pageSize else rows.length
  { rowAt := fun index =>
      if index - anchorIndex < (rowsLength : Int) then jsIndex rows (index - anchorIndex)
      else none
    rowsLength := rowsLength
    complete := complete
    rowsEmpty := decide (rows.length = 0)
    atStart := startRow.isNone || decide (anchorIndex = 0)
    atEnd := complete && !hasMoreRows
    firstRowIndex := anchorIndex
    permalinkNotFound := false }

/-- The backward branch of `useRows` (use-rows.ts): the start row is
required (`assert(start !== null)` is captured by the non-optional
`startRow` argument); `rows` is the result of the page query of limit
`pageSize + 1` in the backward direction. -/
def useRowsBackward {TRow S : Type} (pageSize : Nat) (anchorIndex : Int)
    (startRow : S) (rows : List TRow) (complete : Bool) : RowsResult TRow :=
  let hasMoreRows : Bool := decide (rows.length > pageSize)
  let rowsLength : Nat := if hasMoreRows then pageSize else rows.length
  { rowAt := fun index =>
      if anchorIndex ≤ index then none
      else
        let i := anchorIndex - index - 1
        if i < 0 ∨ (rowsLength : Int) ≤ i then none else jsIndex rows i
    rowsLength := rowsLength
    complete := complete
    rowsEmpty := decide (rows.length = 0)
    atStart := complete && !hasMoreRows
    atEnd := false
    firstRowIndex := anchorIndex - rowsLength
    permalinkNotFound := false }

/-- The record the permalink branch of `useRows` returns. `rowAt` runs in
`Except Unit` because the source accessor contains an `assert`;
`qBeforeIssued`/`qAfterIssued` record whether the before/after page queries
were issued (the source passes `null`/skips them otherwise). -/
structure PermalinkRows (TRow : Type) where
  rowAt : Int → Except Unit (Option TRow)
  rowsLength : Nat
  complete : Bool
  rowsEmpty : Bool
  atStart : Bool
  atEnd : Bool
  firstRowIndex : Int
  permalinkNotFound : Bool
  qBeforeIssued : Bool
  qAfterIssued : Bool

/-- The permalink `rowAt` accessor (use-rows.ts lines 305-338):
the anchor slot holds the single row; indices after the anchor read the
forward page, indices before it the backward page, each cut off at its
clamped size. The source's `assert(index < anchorIndex)` is the `.error`
branch (unreachable for integer indices, as proved below). -/
def rowAtPermalink {TRow : Type} (anchorIndex : Int) (row : Option TRow)
    (rowsBefore rowsAfter : Option (List TRow)) (rowsBeforeSize rowsAfterSize : Nat)
    (index : Int) : Except Unit (Option TRow) :=
  if index = anchorIndex then .ok row
  else if anchorIndex < index then
    match rowsAfter with
    | none => .ok none
    | some l =>
        let i := index - anchorIndex - 1
        if (rowsAfterSize : Int) ≤ i then .ok none else .ok (jsIndex l i)
  else if index < anchorIndex then
    match rowsBefore with
    | none => .ok none
    | some l =>
        let i := anchorIndex - index - 1
        if (rowsBeforeSize : Int) ≤ i then .ok none else .ok (jsIndex l i)
  else .error ()

/-- The permalink branch of `useRows` (use-rows.ts lines 253-349). `row` and
`completeRow` are the exact-match query's result; `rowsBefore`/`rowsAfter`
are the before/after page query results (`none` while skipped or pending).
The two leading `assert`s (`assert(id)`, `assert(pageSize % 2 === 0)`) are
the `.error` cases. When the exact-match query completes empty the source
returns early, before building the page queries; in every reachable call
`pageSize` is even and at least `MIN_PAGE_SIZE`, so the `Nat` subtraction
in `halfPageSize - 1` matches JS arithmetic. -/
def useRowsPermalink {TRow S : Type} (pageSize : Nat) (id : String) (anchorIndex : Int)
    (toStartRow : TRow → S) (row : Option TRow) (completeRow : Bool)
    (rowsBefore : Option (List TRow)) (completeBefore : Bool)
    (rowsAfter : Option (List TRow)) (completeAfter : Bool) :
    Except Unit (PermalinkRows TRow) :=
  if id = "" then .error ()
  else if pageSize % 2 ≠ 0 then .error ()
  else
    let halfPageSize := pageSize / 2
    if completeRow && row.isNone then
      .ok { rowAt := fun _ => .ok none
            rowsLength := 0
            complete := true
            rowsEmpty := true
            atStart := true
            atEnd := true
            firstRowIndex := anchorIndex
            permalinkNotFound := true
            qBeforeIssued := false
            qAfterIssued := false }
    else
      let start := row.map toStartRow
      let rowsBeforeLength := (rowsBefore.getD []).length
      let rowsAfterLength := (rowsAfter.getD []).length
      let rowsBeforeSize := min rowsBeforeLength halfPageSize
      let rowsAfterSize := min rowsAfterLength (halfPageSize - 1)
      .ok { rowAt := rowAtPermalink anchorIndex row rowsBefore rowsAfter
              rowsBeforeSize rowsAfterSize
            rowsLength := rowsBeforeSize + rowsAfterSize + (if row.isSome then 1 else 0)
            complete := completeRow && (row.isNone || (completeBefore && completeAfter))
            rowsEmpty := row.isNone ||
              (decide (rowsBeforeSize = 0) && decide (rowsAfterSize = 0))
            atStart := completeBefore && decide (rowsBeforeLength ≤ halfPageSize)
            atEnd := completeAfter && decide (rowsAfterLength ≤ halfPageSize - 1)
            firstRowIndex := anchorIndex - rowsBeforeSize
            permalinkNotFound := false
            qBeforeIssued := start.isSome
            qAfterIssued := start.isSome }

/-- `makeEven` from use-zero-virtualizer.ts: add 1 if odd. -/
def makeEven (n : Nat) : Nat := if n % 2 = 0 then n else n + 1

/-- `Math.ceil(a / b)` for natural `a`, positive natural `b`. -/
def ceilDiv (a b : Nat) : Nat := (a + b - 1) / b

/-- The page-size target of the coordinator's resize effect
(use-zero-virtualizer.ts lines 312-330):
`Math.max(MIN_PAGE_SIZE, makeEven(Math.ceil(height / rowHeight) * 3))`. -/
def targetPageSize (viewportHeight rowHeight : Nat) : Nat :=
  max MIN_PAGE_SIZE (makeEven (ceilDiv viewportHeight rowHeight * 3))

/-- The resize effect's update: `if (newPageSize > pageSize) setPageSize(newPageSize)`. -/
def nextPageSize (pageSize viewportHeight rowHeight : Nat) : Nat :=
  if pageSize < targetPageSize viewportHeight rowHeight then
    targetPageSize viewportHeight rowHeight
  else pageSize

/-- The page-size formula as the spec's words state it, for comparison with
`targetPageSize`: the smallest even number that is at least
`max(minimumPageSize, ceil(3 × viewportHeight / rowHeight))`. -/
def specTargetPageSize (viewportHeight rowHeight : Nat) : Nat :=
  makeEven (max MIN_PAGE_SIZE (ceilDiv (3 * viewportHeight) rowHeight))

/-- Dispatch an action through the reducer when a condition holds, else keep
the state: one conditional `dispatch` call of an effect. -/
def dispatchIf {C S : Type} (cond : Bool) (a : PagingAction C S) (s : PagingState C S) :
    PagingState C S :=
  if cond then pagingReducer s a else s

/-- The boundary/estimate effects of use-zero-virtualizer.ts (lines 357-373)
after a `useRows` render, in source order: `REACHED_START` when `atStart`,
`REACHED_END` when `atEnd`, and `UPDATE_ESTIMATED_TOTAL` with
`firstRowIndex + rowsLength` when the window is complete and that value
exceeds the current estimate. -/
def afterRowsEffects {C S TRow : Type} (s : PagingState C S) (res : RowsResult TRow) :
    PagingState C S :=
  let newEstimatedTotal : Int := res.firstRowIndex + res.rowsLength
  let s1 := dispatchIf res.atStart .reachedStart s
  let s2 := dispatchIf res.atEnd .reachedEnd s1
  dispatchIf (res.complete && decide (s2.estimatedTotal < newEstimatedTotal))
    (.updateEstimatedTotal newEstimatedTotal) s2

/-- The paging effect of use-zero-virtualizer.ts (lines 389-429): the action
it dispatches, or `none`. Skips everything while the window is empty or the
list context is stale; completes the `skipping` phase; otherwise corrects a
negative first row index with `SHIFT_ANCHOR_DOWN` or an at-start window with
a positive first row index with `RESET_TO_TOP`. -/
def pagingEffectAction {C S TRow : Type} (isListContextCurrent : Bool)
    (res : RowsResult TRow) (anchor : Anchor S) (pagingPhase : PagingPhase)
    (pendingScrollAdjustment : Int) : Option (PagingAction C S) :=
  if res.rowsEmpty || !isListContextCurrent then none
  else if pagingPhase = .skipping ∧ pendingScrollAdjustment = 0 then some .pagingComplete
  else if pendingScrollAdjustment ≠ 0 then none
  else if res.firstRowIndex < 0 then
    let placeholderRows : Int := if !res.atStart then NUM_ROWS_FOR_LOADING_SKELETON else 0
    let offset := -res.firstRowIndex + placeholderRows
    some (.shiftAnchorDown offset (anchor.withIndex (anchor.index + offset)))
  else if res.atStart ∧ 0 < res.firstRowIndex then some (.resetToTop (-res.firstRowIndex))
  else none

/-- The list-context params an action installs: those of a `RESET_STATE`
action, and the fallback (prior) params for every other action. -/
def actionContext {C S : Type} (a : PagingAction C S) (fallback : C) : C :=
  match a with
  | .resetState _ _ _ _ listContextParams => listContextParams
  | _ => fallback

/-- Whether a materializer accessor call hit an assertion failure. -/
def isAssertFailure {α : Type} : Except Unit α → Bool
  | .error _ => true
  | .ok _ => false

/-- The state after `UPDATE_ESTIMATED_TOTAL 10` then `RESET_TO_TOP (-3)`
from the fresh-mount initial state: the offset `-3` is what the paging
effect dispatches when an at-start window has `firstRowIndex = 3`. -/
def c1StateBeforeAdjust : PagingState Nat Unit :=
  pagingReducer (pagingReducer (initialPagingState 0) (.updateEstimatedTotal 10))
    (.resetToTop (-3))

/-- The state one `SCROLL_ADJUSTED` later. -/
def c1StateAfterAdjust : PagingState Nat Unit :=
  pagingReducer c1StateBeforeAdjust .scrollAdjusted

/-- A reachable state with a nonzero pending scroll adjustment: the fresh
mount state after `SHIFT_ANCHOR_DOWN 5`. -/
def c7PriorState : PagingState Nat Unit :=
  pagingReducer (initialPagingState 0) (.shiftAnchorDown 5 (.forward 3 none))

/-- A concrete `RESET_STATE` action. -/
def c7ResetAction : PagingAction Nat Unit :=
  .resetState 2 true false (.forward 0 none) 1

/-- The `useRows` output on an empty data set: fresh-mount top-of-sequence
forward anchor, page size 100, the single forward query returned zero rows
with a complete status. -/
def emptyDatasetRows : RowsResult Nat :=
  @useRowsForward Nat Unit 100 0 none [] true

/-- The paging state after the boundary/estimate effects run on the empty
data set. -/
def emptyDatasetState : PagingState Nat Unit :=
  afterRowsEffects (initialPagingState 0) emptyDatasetRows

/-- C1 counterexample: from the fresh-mount state, the action sequence
`UPDATE_ESTIMATED_TOTAL 10`, `RESET_TO_TOP (-3)`, `SCROLL_ADJUSTED` —
none of which is `RESET_STATE` — drops `estimatedTotal` from 10 to 7, so
the estimate is not non-decreasing across `RESET_TO_TOP`/`SCROLL_ADJUSTED`
within one list-context. -/
theorem c1_estimate_decreases_counterexample :
    isResetState (PagingAction.updateEstimatedTotal 10 : PagingAction Nat Unit) = false ∧
    isResetState (PagingAction.resetToTop (-3) : PagingAction Nat Unit) = false ∧
    isResetState (PagingAction.scrollAdjusted : PagingAction Nat Unit) = false ∧
    c1StateBeforeAdjust.estimatedTotal = 10 ∧
    c1StateAfterAdjust.estimatedTotal = 7 ∧
    c1StateAfterAdjust.estimatedTotal < c1StateBeforeAdjust.estimatedTotal := by
  decide

/-- C2: the exposed exact total is defined exactly when both sticky
boundary flags are true, it then equals `estimatedTotal`, and it is absent
when either flag is false. -/
theorem c2_exact_total_gating (C S : Type) (s : PagingState C S) :
    ((exposedTotal s).isSome = (s.hasReachedStart && s.hasReachedEnd)) ∧
    (s.hasReachedStart = true → s.hasReachedEnd = true →
      exposedTotal s = some s.estimatedTotal) ∧
    ((s.hasReachedStart = false ∨ s.hasReachedEnd = false) → exposedTotal s = none) := by
  obtain ⟨et, hs, he, qa, ph, psa⟩ := s
  cases hs <;> cases he <;> simp [exposedTotal]

/-- C6 (code bug evidence): on an empty data set the window is empty and
complete with both boundaries reached, the paging effect dispatches
nothing, both sticky flags become true — but the exposed exact total is 1
(the initial loading-skeleton estimate, which nothing ever lowers), not 0
as the spec's scenario states. -/
theorem c6_empty_dataset_total_is_one :
    emptyDatasetRows.rowsEmpty = true ∧
    emptyDatasetRows.complete = true ∧
    emptyDatasetRows.atStart = true ∧
    emptyDatasetRows.atEnd = true ∧
    @pagingEffectAction Nat Unit Nat true emptyDatasetRows TOP_ANCHOR
      emptyDatasetState.pagingPhase emptyDatasetState.pendingScrollAdjustment = none ∧
    emptyDatasetState.hasReachedStart = true ∧
    emptyDatasetState.hasReachedEnd = true ∧
    exposedTotal emptyDatasetState = some 1 ∧
    ¬ exposedTotal emptyDatasetState = some 0 := by
  decide

/-- C7 (code bug evidence): `RESET_STATE` is not a full replacement — the
prior state's `pendingScrollAdjustment` (here 5, from a reachable state)
survives the transition, and two prior states differing only in that field
produce different results for the same `RESET_STATE` action. -/
theorem c7_reset_state_keeps_pending_adjustment :
    c7PriorState.pendingScrollAdjustment = 5 ∧
    (pagingReducer c7PriorState c7ResetAction).pendingScrollAdjustment = 5 ∧
    pagingReducer c7PriorState c7ResetAction ≠
      pagingReducer { c7PriorState with pendingScrollAdjustment := 0 } c7ResetAction := by
  decide

/-- C8 counterexample: at viewport height 1652 and row height 48 the code's
target page size is `makeEven(ceil(1652/48)·3) = makeEven(105) = 106`,
while the claimed formula (smallest even number at least
`max(100, ceil(3·1652/48)) = 104`) gives 104. -/
theorem c8_target_page_size_counterexample :
    targetPageSize 1652 48 = 106 ∧
    specTargetPageSize 1652 48 = 104 ∧
    targetPageSize 1652 48 ≠ specTargetPageSize 1652 48 := by
  decide

/-- C9 counterexample: a permalink accessor call at index 100, far outside
the loaded window around anchor 5, returns the value `undefined` and is not
an assertion failure; a forward accessor likewise returns `undefined` out
of range. -/
theorem c9_out_of_range_returns_undefined_counterexample :
    @rowAtPermalink Nat 5 (some 7) (some [1, 2]) (some [3]) 2 1 100 =
      .ok none ∧
    isAssertFailure
      (@rowAtPermalink Nat 5 (some 7) (some [1, 2]) (some [3]) 2 1 100) =
      false ∧
    (@useRowsForward Nat Unit 4 0 none [10, 20, 30] true).rowAt 100 = none := by
  exact ⟨rfl, rfl, rfl⟩

/-- C10: every action other than `RESET_STATE` preserves the anchor's
list-context tag (`actionContext` returns the prior tag for them), and
`RESET_STATE` installs the action's anchor and list-context params in the
same transition. -/
theorem c10_only_reset_state_changes_list_context (C S : Type)
    (s : PagingState C S) (a : PagingAction C S) (et : Int) (hs he : Bool)
    (an : Anchor S) (ctx : C) :
    ((pagingReducer s a).queryAnchor.listContextParams =
      actionContext a s.queryAnchor.listContextParams) ∧
    ((pagingReducer s (.resetState et hs he an ctx)).queryAnchor =
      { anchor := an, listContextParams := ctx }) := by
  refine ⟨?_, rfl⟩
  cases a with
  | updateEstimatedTotal n =>
      unfold pagingReducer actionContext
      dsimp only
      split <;> rfl
  | reachedStart => rfl
  | reachedEnd => rfl
  | updateAnchor a => rfl
  | shiftAnchorDown o a => rfl
  | resetToTop o => rfl
  | scrollAdjusted => rfl
  | pagingComplete => rfl
  | resetState a b c d e => rfl

/-- C1 (amended): within one list-context, `estimatedTotal` is
non-decreasing across every non-`RESET_STATE` transition except a
`SCROLL_ADJUSTED` whose pending adjustment is negative: it is monotone
across `UPDATE_ESTIMATED_TOTAL` unconditionally, and across
`SCROLL_ADJUSTED` whenever `pendingScrollAdjustment ≥ 0` (a negative
pending adjustment — recorded by `RESET_TO_TOP` or `SHIFT_ANCHOR_DOWN`
with a negative offset — decreases it). -/
theorem c1_estimate_monotone_amended (C S : Type) (s : PagingState C S)
    (a : PagingAction C S) (hreset : isResetState a = false)
    (hadj : a = .scrollAdjusted → 0 ≤ s.pendingScrollAdjustment) :
    s.estimatedTotal ≤ (pagingReducer s a).estimatedTotal := by
  cases a with
  | updateEstimatedTotal n =>
      unfold pagingReducer
      dsimp only
      split
      · exact le_refl _
      · exact le_max_left _ _
  | reachedStart => exact le_refl _
  | reachedEnd => exact le_refl _
  | updateAnchor a => exact le_refl _
  | shiftAnchorDown o a => exact le_refl _
  | resetToTop o => exact le_refl _
  | scrollAdjusted =>
      have h := hadj rfl
      unfold pagingReducer
      dsimp only
      omega
  | pagingComplete => exact le_refl _
  | resetState a b c d e => simp [isResetState] at hreset

/-- C1 amended witness: a `REACHED_START` step from the fresh-mount state
does not decrease the estimate. -/
theorem c1_estimate_monotone_amended_witness :
    (@initialPagingState Nat Unit 0).estimatedTotal ≤
      (pagingReducer (@initialPagingState Nat Unit 0)
        .reachedStart).estimatedTotal :=
  c1_estimate_monotone_amended Nat Unit (initialPagingState 0) .reachedStart
    (by decide) (fun h => absurd h (by decide))

/-- The forward accessor body at window length `L ≤ rows.length` is defined
exactly on `[a, a + L)`. -/
theorem forward_accessor_isSome (α : Type) (a : Int) (rows : List α) (L : Nat)
    (hL : L ≤ rows.length) (i : Int) :
    ((if i - a < (L : Int) then jsIndex rows (i - a) else none).isSome = true ↔
      a ≤ i ∧ i < a + L) := by
  unfold jsIndex
  split_ifs with h1 h2
  · simp only [Option.isSome_none, Bool.false_eq_true, false_iff]
    omega
  · rw [← Option.ne_none_iff_isSome, ne_eq, List.getElem?_eq_none_iff]
    omega
  · simp only [Option.isSome_none, Bool.false_eq_true, false_iff]
    omega

/-- C3: for a forward anchor at index `a` whose page query has completed,
with materialized window length `n = rowsLength`, the accessor is defined
exactly on the integers `a ≤ i < a + n` and absent outside. -/
theorem c3_forward_window_contiguity (TRow S : Type) (pageSize : Nat)
    (anchorIndex : Int) (startRow : Option S) (rows : List TRow) (i : Int) :
    (((useRowsForward pageSize anchorIndex startRow rows true).rowAt i).isSome = true ↔
      anchorIndex ≤ i ∧
        i < anchorIndex + (useRowsForward pageSize anchorIndex startRow rows true).rowsLength) := by
  have h := forward_accessor_isSome TRow anchorIndex rows
    (if decide (rows.length > pageSize) = true then pageSize else rows.length)
    (by split <;> simp_all <;> omega) i
  exact h

/-- C4: once the page query of limit `pageSize + 1` completes, the forward
window's `atEnd` (and the backward window's `atStart`) is false exactly
when the returned row count exceeds `pageSize`, true otherwise. -/
theorem c4_lookahead_boundary (TRow S : Type) (pageSize : Nat) (anchorIndex : Int)
    (startRowF : Option S) (startRowB : S) (rows : List TRow) :
    ((useRowsForward pageSize anchorIndex startRowF rows true).atEnd = false ↔
      pageSize < rows.length) ∧
    ((useRowsForward pageSize anchorIndex startRowF rows true).atEnd = true ↔
      rows.length ≤ pageSize) ∧
    ((useRowsBackward pageSize anchorIndex startRowB rows true).atStart = false ↔
      pageSize < rows.length) ∧
    ((useRowsBackward pageSize anchorIndex startRowB rows true).atStart = true ↔
      rows.length ≤ pageSize) := by
  dsimp only [useRowsForward, useRowsBackward]
  simp

/-- C5: when the exact-match query of a permalink anchor completes with no
result, the materializer reports `permalinkNotFound`, is complete and
empty, issues neither the before nor the after page query, and every
accessor call returns `undefined`. -/
theorem c5_permalink_not_found (TRow S : Type) (pageSize : Nat) (id : String)
    (anchorIndex : Int) (toStartRow : TRow → S)
    (rowsBefore : Option (List TRow)) (completeBefore : Bool)
    (rowsAfter : Option (List TRow)) (completeAfter : Bool)
    (heven : pageSize % 2 = 0) (hid : id ≠ "") :
    ∃ r : PermalinkRows TRow,
      useRowsPermalink pageSize id anchorIndex toStartRow none true
          rowsBefore completeBefore rowsAfter completeAfter = .ok r ∧
      r.permalinkNotFound = true ∧ r.complete = true ∧ r.rowsEmpty = true ∧
      r.qBeforeIssued = false ∧ r.qAfterIssued = false ∧
      ∀ i : Int, r.rowAt i = .ok none := by
  refine ⟨{ rowAt := fun _ => .ok none, rowsLength := 0, complete := true,
            rowsEmpty := true, atStart := true, atEnd := true,
            firstRowIndex := anchorIndex, permalinkNotFound := true,
            qBeforeIssued := false, qAfterIssued := false },
    ?_, rfl, rfl, rfl, rfl, rfl, fun i => rfl⟩
  unfold useRowsPermalink
  rw [if_neg hid, if_neg (show ¬pageSize % 2 ≠ 0 by omega)]
  rfl

/-- C5 witness: a not-found permalink lookup at page size 100 and anchor 7. -/
theorem c5_permalink_not_found_witness :
    ∃ r : PermalinkRows Nat,
      useRowsPermalink 100 "p1" 7 (fun n : Nat => n) none true
          none false none false = .ok r ∧
      r.permalinkNotFound = true ∧ r.complete = true ∧ r.rowsEmpty = true ∧
      r.qBeforeIssued = false ∧ r.qAfterIssued = false ∧
      ∀ i : Int, r.rowAt i = .ok none :=
  c5_permalink_not_found Nat Nat 100 "p1" 7 (fun n => n) none false none false
    (by decide) (by decide)

/-- C8 (amended): the coordinator's target page size is the smallest even
number at least `max(minimumPageSize, 3 × ceil(viewportHeight / rowHeight))`
— the per-viewport row count is rounded up before tripling — and the page
size in effect never shrinks: the target is applied exactly when it exceeds
the current page size. -/
theorem c8_page_size_amended (viewportHeight rowHeight pageSize : Nat) :
    (targetPageSize viewportHeight rowHeight =
      makeEven (max MIN_PAGE_SIZE (3 * ceilDiv viewportHeight rowHeight))) ∧
    (targetPageSize viewportHeight rowHeight) % 2 = 0 ∧
    max MIN_PAGE_SIZE (3 * ceilDiv viewportHeight rowHeight) ≤
      targetPageSize viewportHeight rowHeight ∧
    (∀ k : Nat, k % 2 = 0 →
      max MIN_PAGE_SIZE (3 * ceilDiv viewportHeight rowHeight) ≤ k →
      targetPageSize viewportHeight rowHeight ≤ k) ∧
    pageSize ≤ nextPageSize pageSize viewportHeight rowHeight ∧
    (pageSize < targetPageSize viewportHeight rowHeight →
      nextPageSize pageSize viewportHeight rowHeight =
        targetPageSize viewportHeight rowHeight) ∧
    (targetPageSize viewportHeight rowHeight ≤ pageSize →
      nextPageSize pageSize viewportHeight rowHeight = pageSize) := by
  unfold nextPageSize targetPageSize makeEven MIN_PAGE_SIZE
  generalize ceilDiv viewportHeight rowHeight = c
  refine ⟨?_, ?_, ?_, fun k hk hle => ?_, ?_, fun h => ?_, fun h => ?_⟩ <;>
    (split_ifs at * <;> omega)

/-- C9 (amended): requesting a row at an index outside the loaded window
does not assert: every accessor (forward, backward, permalink) returns
`undefined` there, and the permalink accessor's internal assertion can
never fire. Assertion-based fail-fast applies to the other listed
invariants (odd permalink page size, backward anchor without a start row),
not to out-of-range access. -/
theorem c9_out_of_range_amended (TRow S : Type) (pageSize : Nat) (anchorIndex : Int)
    (startRowF : Option S) (startRowB : S) (rows : List TRow) (complete : Bool)
    (row : Option TRow) (rowsBefore rowsAfter : Option (List TRow))
    (rowsBeforeSize rowsAfterSize : Nat) (i : Int) :
    ((i < anchorIndex ∨
        anchorIndex + (useRowsForward pageSize anchorIndex startRowF rows complete).rowsLength ≤ i) →
      (useRowsForward pageSize anchorIndex startRowF rows complete).rowAt i = none) ∧
    ((i < (useRowsBackward pageSize anchorIndex startRowB rows complete).firstRowIndex ∨
        anchorIndex ≤ i) →
      (useRowsBackward pageSize anchorIndex startRowB rows complete).rowAt i = none) ∧
    ((i < anchorIndex - rowsBeforeSize ∨ anchorIndex + rowsAfterSize < i) →
      rowAtPermalink anchorIndex row rowsBefore rowsAfter rowsBeforeSize rowsAfterSize i =
        .ok none) ∧
    isAssertFailure
      (rowAtPermalink anchorIndex row rowsBefore rowsAfter rowsBeforeSize rowsAfterSize i) =
      false := by
  refine ⟨fun h => ?_, fun h => ?_, fun h => ?_, ?_⟩
  · dsimp only [useRowsForward, jsIndex] at h ⊢
    set L : Nat := if decide (rows.length > pageSize) = true then pageSize else rows.length
    split_ifs <;> try rfl
    exfalso
    omega
  · dsimp only [useRowsBackward, jsIndex] at h ⊢
    set L : Nat := if decide (rows.length > pageSize) = true then pageSize else rows.length
    split_ifs <;> try rfl
    exfalso
    omega
  · rcases h with h | h
    · have h1 : ¬i = anchorIndex := by omega
      have h2 : ¬anchorIndex < i := by omega
      have h3 : i < anchorIndex := by omega
      simp only [rowAtPermalink, if_neg h1, if_neg h2, if_pos h3]
      cases rowsBefore with
      | none => rfl
      | some l =>
          have h4 : (rowsBeforeSize : Int) ≤ anchorIndex - i - 1 := by omega
          simp only [if_pos h4]
    · have h1 : ¬i = anchorIndex := by omega
      have h2 : anchorIndex < i := by omega
      simp only [rowAtPermalink, if_neg h1, if_pos h2]
      cases rowsAfter with
      | none => rfl
      | some l =>
          have h4 : (rowsAfterSize : Int) ≤ i - anchorIndex - 1 := by omega
          simp only [if_pos h4]
  · rcases lt_trichotomy i anchorIndex with h | h | h
    · have h1 : ¬i = anchorIndex := by omega
      have h2 : ¬anchorIndex < i := by omega
      simp only [rowAtPermalink, if_neg h1, if_neg h2, if_pos h]
      cases rowsBefore with
      | none => rfl
      | some l =>
          dsimp only
          split_ifs <;> rfl
    · simp only [rowAtPermalink, if_pos h]
      rfl
    · have h1 : ¬i = anchorIndex := by omega
      simp only [rowAtPermalink, if_neg h1, if_pos h]
      cases rowsAfter with
      | none => rfl
      | some l =>
          dsimp only
          split_ifs <;> rfl

end ZeroVirtual
